import Mathlib

/-!
Verification development for the junjo-server span ingestion and indexing
pipeline.  The definitions below are a shallow embedding of the Python
sources:

* `app/features/span_ingestion/span_processor.py` (backend_python)
* `app/features/span_ingestion/background_poller.py` (backend)
* `app/db_duckdb/repository.py` (backend_python)
* `app/features/internal_auth/grpc_service.py` (backend)
* `app/features/otel_spans/repository.py` (backend_python)
* `app/database/api_keys/repository.py` (backend_python)

Protobuf-parsed messages are embedded as plain structures; byte strings are
`List Nat`; database relations are lists of row structures; fallible
database calls are driven by explicit failure oracles and modelled in the
`Except` monad.
-/

namespace Junjo

/-- OTLP `AnyValue`: the tagged union of the six protobuf attribute value
variants, plus the unset oneof case.  The double payload is carried as a
`Float`; no theorem below inspects it. -/
inductive AnyValue where
  | stringValue (s : String)
  | intValue (i : Int)
  | doubleValue (d : Float)
  | boolValue (b : Bool)
  | arrayValue (items : List AnyValue)
  | kvlistValue (entries : List (String × AnyValue))
  | bytesValue (bs : List Nat)
  | unsetValue

/-- OTLP `KeyValue` attribute. -/
structure KeyValue where
  key : String
  value : AnyValue

/-- OTLP `Span.Event`. -/
structure SpanEvent where
  name : String
  time_unix_nano : Nat
  dropped_attributes_count : Nat
  attributes : List KeyValue

/-- OTLP `Status` submessage.  In the Python protobuf runtime `span.status`
is always truthy (message fields have no custom truthiness), so the code in
`process_single_span` always reads `code` and `message`; we therefore embed
the status as an always-present structure with proto3 defaults. -/
structure SpanStatus where
  code : Nat
  message : String

/-- OTLP `Span` as parsed by `trace_pb2.Span.ParseFromString`. -/
structure Span where
  trace_id : List Nat
  span_id : List Nat
  parent_span_id : List Nat
  name : String
  kind : Nat
  start_time_unix_nano : Nat
  end_time_unix_nano : Nat
  attributes : List KeyValue
  events : List SpanEvent
  status : SpanStatus
  flags : Nat
  trace_state : String

/-- The literal two-character string rendering an empty JSON object, the
default used by `extract_json_attribute` and the workflow-state columns. -/
def emptyJsonObject : String := "\x7b\x7d"

/-- Lowercase hex digit for a nibble, as produced by Python `bytes.hex()`. -/
def hexDigitChar (n : Nat) : Char :=
  if n < 10 then Char.ofNat (48 + n) else Char.ofNat (87 + n)

/-- Two lowercase hex digits for one byte. -/
def byteHex (b : Nat) : String :=
  String.mk [hexDigitChar (b / 16 % 16), hexDigitChar (b % 16)]

/-- Python `bytes.hex()`: lowercase hex rendering of a byte string. -/
def bytesHex (bs : List Nat) : String :=
  String.join (bs.map byteHex)

/-- Embeds `JUNJO_FILTERED_ATTRIBUTES` from `span_processor.py` lines 25-35: the
attribute keys stored in dedicated columns and removed from
`attributes_json`. -/
def JUNJO_FILTERED_ATTRIBUTES : List String :=
  [ "junjo.workflow_id",
    "node.id",
    "junjo.id",
    "junjo.parent_id",
    "junjo.span_type",
    "junjo.workflow.state.start",
    "junjo.workflow.state.end",
    "junjo.workflow.graph_structure",
    "junjo.workflow.store.id" ]

/-- The `kind_map` dictionary inside `convert_kind` (`span_processor.py`
lines 50-57), embedded as an association list. -/
def kind_map : List (Nat × String) :=
  [ (0, "UNSPECIFIED"),
    (1, "CLIENT"),
    (2, "SERVER"),
    (3, "INTERNAL"),
    (4, "PRODUCER"),
    (5, "CONSUMER") ]

/-- Python dictionary lookup (`dict.get`) over an association list. -/
def kindLookup : List (Nat × String) → Nat → Option String
  | [], _ => none
  | (k, v) :: rest, kind => if kind = k then some v else kindLookup rest kind

/-- Embeds `convert_kind` (`span_processor.py` lines 38-58): dictionary lookup with
default `"UNSPECIFIED"`. -/
def convert_kind (kind : Nat) : String :=
  (kindLookup kind_map kind).getD "UNSPECIFIED"

/-- Embeds `convert_otlp_timestamp` (`span_processor.py` lines 61-82): nanoseconds
since the epoch to a microsecond-precision UTC instant.  We represent the
resulting `datetime` by its microsecond count; the floating-point rounding
of the Python implementation is elided (its own docstring specifies
truncation of the final three decimal digits). -/
def convert_otlp_timestamp (ts_nano : Nat) : Nat :=
  ts_nano / 1000

/-- Embeds `extract_string_attribute` (`span_processor.py` lines 85-100): first
attribute with the given key whose value is the string variant; empty
string when none matches. -/
def extract_string_attribute : List KeyValue → String → String
  | [], _ => ""
  | attr :: rest, key =>
    match attr.value with
    | AnyValue.stringValue s =>
        if attr.key = key then s else extract_string_attribute rest key
    | _ => extract_string_attribute rest key

/-- Embeds `extract_json_attribute` (`span_processor.py` lines 103-118): same
lookup, defaulting to the empty-JSON-object string. -/
def extract_json_attribute : List KeyValue → String → String
  | [], _ => emptyJsonObject
  | attr :: rest, key =>
    match attr.value with
    | AnyValue.stringValue s =>
        if attr.key = key then s else extract_json_attribute rest key
    | _ => extract_json_attribute rest key

/-- JSON values as produced by `convert_otlp_value` and later serialized by
`json.dumps`.  Objects are embedded as insertion-ordered key/value lists
(Python dict semantics). -/
inductive JsonVal where
  | str (s : String)
  | int (i : Int)
  | dbl (d : Float)
  | bool (b : Bool)
  | arr (xs : List JsonVal)
  | obj (kvs : List (String × JsonVal))

/-- Python dict assignment `m[k] = v`: overwrite in place when the key
exists, append otherwise. -/
def dictInsert : List (String × JsonVal) → String → JsonVal → List (String × JsonVal)
  | [], k, v => [(k, v)]
  | (k', v') :: rest, k, v =>
    if k' = k then (k', v) :: rest else (k', v') :: dictInsert rest k v

/-- The primitive-only element conversion used inside the `array_value` and
`kvlist_value` cases of `convert_otlp_value` (`span_processor.py` lines
158-193): string, int, double, bool are kept, anything else is dropped with
a warning. -/
def primValue : AnyValue → Option JsonVal
  | AnyValue.stringValue s => some (JsonVal.str s)
  | AnyValue.intValue i => some (JsonVal.int i)
  | AnyValue.doubleValue d => some (JsonVal.dbl d)
  | AnyValue.boolValue b => some (JsonVal.bool b)
  | _ => none

/-- Builds the kvlist dictionary of `convert_otlp_value` with Python dict
overwrite semantics. -/
def kvlistMap (entries : List (String × AnyValue)) : List (String × JsonVal) :=
  entries.foldl
    (fun m kv =>
      match primValue kv.2 with
      | some jv => dictInsert m kv.1 jv
      | none => m)
    []

/-- Embeds `convert_otlp_value` (`span_processor.py` lines 121-200): total mapping
from the tagged union to an optional JSON value; `None` for the unset
oneof. -/
def convert_otlp_value : AnyValue → Option JsonVal
  | AnyValue.stringValue s => some (JsonVal.str s)
  | AnyValue.intValue i => some (JsonVal.int i)
  | AnyValue.doubleValue d => some (JsonVal.dbl d)
  | AnyValue.boolValue b => some (JsonVal.bool b)
  | AnyValue.arrayValue items => some (JsonVal.arr (items.filterMap primValue))
  | AnyValue.kvlistValue entries => some (JsonVal.obj (kvlistMap entries))
  | AnyValue.bytesValue bs => some (JsonVal.str (bytesHex bs))
  | AnyValue.unsetValue => none

/-- The `attr_map` construction of `convert_attributes_to_json`
(`span_processor.py` lines 203-226): convert each attribute, skip `None`
results, Python-dict insert by key.  We embed the resulting JSON object
directly (the `json.dumps` serialization preserves exactly these keys). -/
def convert_attributes_map (attributes : List KeyValue) : List (String × JsonVal) :=
  attributes.foldl
    (fun m attr =>
      match convert_otlp_value attr.value with
      | some v => dictInsert m attr.key v
      | none => m)
    []

/-- One element of the `events_json` array (`convert_events_to_json`,
`span_processor.py` lines 229-258). -/
structure EventJson where
  name : String
  timeUnixNano : Nat
  droppedAttributesCount : Nat
  attributes : List (String × JsonVal)

/-- Embeds `convert_events_to_json` (`span_processor.py` lines 229-258), with the
serialized JSON array embedded structurally. -/
def convert_events_json (events : List SpanEvent) : List EventJson :=
  events.map fun e =>
    { name := e.name
      timeUnixNano := e.time_unix_nano
      droppedAttributesCount := e.dropped_attributes_count
      attributes := convert_attributes_map e.attributes }

/-- Embeds `filter_junjo_attributes` (`span_processor.py` lines 261-274). -/
def filter_junjo_attributes (attributes : List KeyValue) : List KeyValue :=
  attributes.filter (fun attr => !(JUNJO_FILTERED_ATTRIBUTES.contains attr.key))

/-- One row of the `spans` relation, with the values exactly as bound by
the `INSERT OR IGNORE INTO spans` statement of `process_single_span`
(`span_processor.py` lines 364-403).  The three JSON-string bodies
`attributes_json` and `events_json` are embedded structurally (their
`json.dumps` rendering preserves exactly this data); `links_json` is the
literal string column. -/
structure SpanRow where
  trace_id : String
  span_id : String
  parent_span_id : Option String
  service_name : String
  name : String
  kind : String
  start_time : Nat
  end_time : Nat
  status_code : String
  status_message : String
  attributes_json : List (String × JsonVal)
  events_json : List EventJson
  links_json : String
  trace_flags : Nat
  trace_state : Option String
  junjo_id : String
  junjo_parent_id : String
  junjo_span_type : String
  junjo_wf_state_start : String
  junjo_wf_state_end : String
  junjo_wf_graph_structure : String
  junjo_wf_store_id : String

/-- One row of the `state_patches` relation as bound by the
`INSERT OR IGNORE INTO state_patches` statement of `process_state_patches`
(`span_processor.py` lines 431-464).  `patch_id` models the fresh
`uuid.uuid4()` surrogate: the caller threads a counter whose values never
collide. -/
structure PatchRow where
  patch_id : Nat
  service_name : String
  trace_id : String
  span_id : String
  workflow_id : String
  node_id : String
  event_time : Nat
  patch_json : String
  patch_store_id : String

/-- The DuckDB state touched by the pipeline: the `spans` and
`state_patches` relations. -/
structure DB where
  spans : List SpanRow
  patches : List PatchRow

/-- The empty columnar store. -/
def DB.empty : DB := ⟨[], []⟩

/-- Steps 1-7 of `process_single_span` (`span_processor.py` lines 305-362):
the pure construction of the row bound by the insert statement.  Python
truthiness of `span.parent_span_id` is non-emptiness of the byte string;
`span.trace_state` is truthy when non-empty. -/
def span_row (service_name : String) (span : Span) : SpanRow :=
  let trace_id := bytesHex span.trace_id
  let span_id := bytesHex span.span_id
  let parent_span_id :=
    if span.parent_span_id.isEmpty then none else some (bytesHex span.parent_span_id)
  let junjo_span_type := extract_string_attribute span.attributes "junjo.span_type"
  let junjo_parent_id := extract_string_attribute span.attributes "junjo.parent_id"
  let junjo_id := extract_string_attribute span.attributes "junjo.id"
  let isWf := junjo_span_type = "workflow" ∨ junjo_span_type = "subflow"
  { trace_id := trace_id
    span_id := span_id
    parent_span_id := parent_span_id
    service_name := service_name
    name := span.name
    kind := convert_kind span.kind
    start_time := convert_otlp_timestamp span.start_time_unix_nano
    end_time := convert_otlp_timestamp span.end_time_unix_nano
    status_code := toString span.status.code
    status_message := span.status.message
    attributes_json := convert_attributes_map (filter_junjo_attributes span.attributes)
    events_json := convert_events_json span.events
    links_json := "[]"
    trace_flags := span.flags
    trace_state := if span.trace_state = "" then none else some span.trace_state
    junjo_id := junjo_id
    junjo_parent_id := junjo_parent_id
    junjo_span_type := junjo_span_type
    junjo_wf_state_start :=
      if isWf then extract_json_attribute span.attributes "junjo.workflow.state.start"
      else emptyJsonObject
    junjo_wf_state_end :=
      if isWf then extract_json_attribute span.attributes "junjo.workflow.state.end"
      else emptyJsonObject
    junjo_wf_graph_structure :=
      if isWf then extract_json_attribute span.attributes "junjo.workflow.graph_structure"
      else emptyJsonObject
    junjo_wf_store_id :=
      if isWf then extract_string_attribute span.attributes "junjo.workflow.store.id"
      else "" }

/-- The `workflow_id` computed at `span_processor.py` lines 328-330. -/
def span_workflow_id (span : Span) : String :=
  if extract_string_attribute span.attributes "junjo.span_type" = "workflow" then
    extract_string_attribute span.attributes "junjo.id"
  else ""

/-- The `node_id` computed at `span_processor.py` lines 332-334. -/
def span_node_id (span : Span) : String :=
  if extract_string_attribute span.attributes "junjo.span_type" = "node" then
    extract_string_attribute span.attributes "junjo.id"
  else ""

/-- DuckDB `INSERT OR IGNORE INTO spans`: the row is appended unless a row
with the same `(trace_id, span_id)` primary key already exists, in which
case the statement is a silent no-op. -/
def insertOrIgnoreSpan (table : List SpanRow) (row : SpanRow) : List SpanRow :=
  if table.any (fun r => r.trace_id == row.trace_id && r.span_id == row.span_id) then table
  else table ++ [row]

/-- DuckDB `INSERT` semantics parametrized by `OR IGNORE`: without the
clause a duplicate `(trace_id, span_id)` primary key raises a constraint
error; with it the row is silently skipped. -/
def duckInsertSpan (orIgnore : Bool) (table : List SpanRow) (row : SpanRow) :
    Except String (List SpanRow) :=
  if table.any (fun r => r.trace_id == row.trace_id && r.span_id == row.span_id) then
    if orIgnore then Except.ok table
    else Except.error "Constraint Error: duplicate primary key"
  else Except.ok (table ++ [row])

/-- Embeds `SpanRepository.batch_insert_spans` (`db_duckdb/repository.py` lines
21-89): `executemany` of `INSERT OR IGNORE INTO spans` over the given rows
(the early `return 0` for an empty list coincides with the empty fold). -/
def batch_insert_spans (spans : List SpanRow) (table : List SpanRow) :
    Except String (List SpanRow) :=
  spans.foldlM (fun t row => duckInsertSpan true t row) table

/-- The pure result of `batch_insert_spans`: a left fold of the
insert-or-ignore step. -/
def batchInsertPure (spans : List SpanRow) (table : List SpanRow) : List SpanRow :=
  spans.foldl insertOrIgnoreSpan table

/-- DuckDB `INSERT OR IGNORE INTO state_patches`, keyed by `patch_id`. -/
def insertOrIgnorePatch (table : List PatchRow) (row : PatchRow) : List PatchRow :=
  if table.any (fun p => p.patch_id == row.patch_id) then table
  else table ++ [row]

/-- Embeds `process_single_span` (`span_processor.py` lines 277-405): build the
row, execute the insert, and return the identifiers needed for state-patch
processing. -/
def process_single_span (db : DB) (service_name : String) (span : Span) :
    DB × String × String × String × String :=
  let row := span_row service_name span
  (⟨insertOrIgnoreSpan db.spans row, db.patches⟩,
    bytesHex span.trace_id, bytesHex span.span_id,
    span_workflow_id span, span_node_id span)

/-- The patch row bound by the insert inside `process_state_patches`
(`span_processor.py` lines 441-463) for one `set_state` event. -/
def mkPatchRow (patch_id : Nat) (service_name trace_id span_id workflow_id node_id : String)
    (event : SpanEvent) : PatchRow :=
  { patch_id := patch_id
    service_name := service_name
    trace_id := trace_id
    span_id := span_id
    workflow_id := workflow_id
    node_id := node_id
    event_time := convert_otlp_timestamp event.time_unix_nano
    patch_json := extract_json_attribute event.attributes "junjo.state_json_patch"
    patch_store_id := extract_string_attribute event.attributes "junjo.store.id" }

/-- The fallible `conn.execute` of one state-patch insert: `patchFail`
decides whether this particular statement raises a database error. -/
def patchInsertAttempt (patchFail : Nat → Bool) (ctr : Nat) (table : List PatchRow)
    (row : PatchRow) : Except String (List PatchRow) :=
  if patchFail ctr then Except.error "patch insert failed"
  else Except.ok (insertOrIgnorePatch table row)

/-- Embeds `process_state_patches` (`span_processor.py` lines 408-476): for each
event named `"set_state"`, generate a fresh `patch_id`, build the patch row
and execute the insert; an exception from the insert is caught, logged and
swallowed (lines 465-475), so the function always returns normally.  The
counter models the `uuid.uuid4()` supply and advances once per attempted
insert. -/
def process_state_patches (db : DB) (events : List SpanEvent)
    (trace_id span_id workflow_id node_id service_name : String)
    (ctr : Nat) (patchFail : Nat → Bool) : DB × Nat :=
  match events with
  | [] => (db, ctr)
  | event :: rest =>
    if event.name = "set_state" then
      let row := mkPatchRow ctr service_name trace_id span_id workflow_id node_id event
      let db' :=
        match patchInsertAttempt patchFail ctr db.patches row with
        | Except.ok patches' => { db with patches := patches' }
        | Except.error _ => db
      process_state_patches db' rest trace_id span_id workflow_id node_id service_name
        (ctr + 1) patchFail
    else
      process_state_patches db rest trace_id span_id workflow_id node_id service_name
        ctr patchFail

/-- The per-span body of the loop in `process_span_batch`
(`span_processor.py` lines 503-512), iterated over the batch; `spanFail`
decides whether the span insert of the span at this index raises, which
aborts the whole batch (the exception propagates to the rollback handler).
-/
def process_spans_loop (service_name : String) :
    List Span → DB → Nat → Nat → (Nat → Bool) → (Nat → Bool) → Except String (DB × Nat)
  | [], db, ctr, _, _, _ => Except.ok (db, ctr)
  | span :: rest, db, ctr, idx, spanFail, patchFail =>
    if spanFail idx then Except.error "span insert failed"
    else
      match process_single_span db service_name span with
      | (db1, trace_id, span_id, workflow_id, node_id) =>
        let (db2, ctr2) :=
          process_state_patches db1 span.events trace_id span_id workflow_id node_id
            service_name ctr patchFail
        process_spans_loop service_name rest db2 ctr2 (idx + 1) spanFail patchFail

/-- Embeds `process_span_batch` (`span_processor.py` lines 478-520): empty batches
return immediately; otherwise the whole batch runs inside one transaction —
on success the new state is committed, on any exception the transaction is
rolled back (the caller keeps the pre-batch state) and the exception
re-raised. -/
def process_span_batch (service_name : String) (spans : List Span) (db : DB)
    (ctr : Nat) (spanFail : Nat → Bool) (patchFail : Nat → Bool) :
    Except String (DB × Nat) :=
  if spans.isEmpty then Except.ok (db, ctr)
  else process_spans_loop service_name spans db ctr 0 spanFail patchFail

/-- The pure (no span-insert failure) result of `process_span_batch`. -/
def process_batch_pure (service_name : String) :
    List Span → DB → Nat → (Nat → Bool) → DB × Nat
  | [], db, ctr, _ => (db, ctr)
  | span :: rest, db, ctr, patchFail =>
    match process_single_span db service_name span with
    | (db1, trace_id, span_id, workflow_id, node_id) =>
      let (db2, ctr2) :=
        process_state_patches db1 span.events trace_id span_id workflow_id node_id
          service_name ctr patchFail
      process_batch_pure service_name rest db2 ctr2 patchFail

/-! ## Background poller (`backend/app/features/span_ingestion/background_poller.py`) -/

/-- One record of the `ReadSpans` stream collected by
`IngestionClient.read_spans`. -/
structure SpanWithResource where
  key_ulid : List Nat
  span_bytes : List Nat
  resource_bytes : List Nat

/-- Outcome of one iteration of the polling loop in `span_ingestion_poller`.
`last_key` is the in-memory cursor variable as left by the iteration — the
value passed to `client.read_spans` on the next cycle.  `saved_key` is the
key persisted to the SQLite `poller_state` row this cycle (`none` when
`upsert_last_key` was not reached). -/
structure CycleResult where
  last_key : List Nat
  db : DB
  saved_key : Option (List Nat)
  ctr : Nat

/-- The `service.name` scan over resource attributes
(`background_poller.py` lines 108-123): first attribute named
`"service.name"` whose value is the string variant, default
`"NO_SERVICE_NAME"`. -/
def firstServiceName : List KeyValue → String
  | [] => "NO_SERVICE_NAME"
  | attr :: rest =>
    match attr.value with
    | AnyValue.stringValue s =>
        if attr.key = "service.name" then s else firstServiceName rest
    | _ => firstServiceName rest

/-- Service-name extraction including the parse-failure fallback
(`background_poller.py` lines 107-133): when `resource_bytes` fails to
parse the default is kept. -/
def extract_service_name (parsedResource : Option (List KeyValue)) : String :=
  match parsedResource with
  | none => "NO_SERVICE_NAME"
  | some attrs => firstServiceName attrs

/-- One iteration of the `while True` loop of `span_ingestion_poller`
(`background_poller.py` lines 66-169), for a cycle in which
`client.read_spans` itself succeeded and returned `frames`.  Protobuf
parsing is abstracted by the oracles `parseSpan` and `parseResource`
(`ParseFromString` returning a message or raising).  Faithful to the
source, the in-memory `last_key` is reassigned to the last frame's
`key_ulid` at step 2, before unmarshalling and before the batch
transaction; the failure paths (`all spans failed to unmarshal`,
`process_span_batch` raising) merely `continue` without restoring it. -/
def poll_cycle (last_key : List Nat) (frames : List SpanWithResource)
    (parseSpan : List Nat → Option Span)
    (parseResource : List Nat → Option (List KeyValue))
    (db : DB) (ctr : Nat) (spanFail : Nat → Bool) (patchFail : Nat → Bool) :
    CycleResult :=
  match frames with
  | [] => ⟨last_key, db, none, ctr⟩
  | f0 :: rest =>
    -- step 2: last_key = spans_with_resources[-1].key_ulid
    let last_key1 := ((f0 :: rest).getLast (List.cons_ne_nil f0 rest)).key_ulid
    -- step 3: unmarshal, skipping corrupted spans
    let processed := (f0 :: rest).filterMap (fun f => parseSpan f.span_bytes)
    match processed with
    | [] => ⟨last_key1, db, none, ctr⟩  -- all failed: warn and continue
    | p0 :: ps =>
      -- step 4: extract service_name from the first frame's resource
      let service_name := extract_service_name (parseResource f0.resource_bytes)
      -- step 5: process the batch in one transaction
      match process_span_batch service_name (p0 :: ps) db ctr spanFail patchFail with
      | Except.error _ => ⟨last_key1, db, none, ctr⟩  -- logged; state not saved
      | Except.ok (db2, ctr2) => ⟨last_key1, db2, some last_key1, ctr2⟩

/-! ## Internal auth RPC (`backend/app/features/internal_auth/grpc_service.py`) -/

/-- One row of the `api_keys` relation. -/
structure APIKeyRow where
  id : String
  key : String
  name : String
  created_at : Nat

/-- Embeds `APIKeyRepository.get_by_key` (`backend_python`
`app/database/api_keys/repository.py` lines 111-134): `SELECT ... WHERE
key == key` with `scalar_one_or_none` — the first row whose `key` column
equals the argument, or `None`. -/
def get_by_key (table : List APIKeyRow) (key : String) : Option APIKeyRow :=
  table.find? (fun r => r.key == key)

/-- The `ValidateApiKeyResponse` protobuf message. -/
structure ValidateApiKeyResponse where
  is_valid : Bool

/-- Embeds `InternalAuthServicer.ValidateApiKey` (`grpc_service.py` lines 23-63).
`dbFails` drives the `SQLAlchemyError` raised by the repository on a
database failure; in that case the handler catches the exception and
returns a negative result instead of propagating (lines 57-63).  The
`Except` result type records that the handler itself never raises. -/
def ValidateApiKey (table : List APIKeyRow) (api_key : String) (dbFails : Bool) :
    Except String ValidateApiKeyResponse :=
  let lookup : Except String (Option APIKeyRow) :=
    if dbFails then Except.error "SQLAlchemyError" else Except.ok (get_by_key table api_key)
  match lookup with
  | Except.ok none => Except.ok ⟨false⟩
  | Except.ok (some _) => Except.ok ⟨true⟩
  | Except.error _ => Except.ok ⟨false⟩

/-! ## Read helpers (`backend_python/app/features/otel_spans/repository.py`) -/

/-- Descending insertion by `start_time`, realizing `ORDER BY start_time
DESC`. -/
def insertDescByStart (row : SpanRow) : List SpanRow → List SpanRow
  | [] => [row]
  | x :: xs =>
    if x.start_time ≤ row.start_time then row :: x :: xs
    else x :: insertDescByStart row xs

/-- Sort a result set by `start_time` descending. -/
def sortByStartDesc (rows : List SpanRow) : List SpanRow :=
  rows.foldr insertDescByStart []

/-- Embeds `get_trace_spans` (`otel_spans/repository.py` lines 219-249):
`SELECT ... FROM spans WHERE trace_id = ? ORDER BY start_time DESC` with
the query argument passed through verbatim.  (The `_parse_json_fields`
post-processing only parses the JSON string bodies, which are embedded
structurally here.) -/
def get_trace_spans (table : List SpanRow) (trace_id : String) : List SpanRow :=
  sortByStartDesc (table.filter (fun r => r.trace_id == trace_id))

/-- Embeds `get_span` (`otel_spans/repository.py` lines 252-286): `SELECT ... FROM
spans WHERE trace_id = ? AND span_id = ?` with `fetchone` — the first row
matching both identifiers verbatim, or `None`. -/
def get_span (table : List SpanRow) (trace_id span_id : String) : Option SpanRow :=
  table.find? (fun r => r.trace_id == trace_id && r.span_id == span_id)

/-! ## Statement helpers -/

/-- Primary-key match predicate for the `spans` relation. -/
def spanPKMatches (tid sid : String) (r : SpanRow) : Bool :=
  r.trace_id == tid && r.span_id == sid

/-- Number of rows in the `spans` relation with the given primary key. -/
def spanCount (table : List SpanRow) (tid sid : String) : Nat :=
  table.countP (spanPKMatches tid sid)

/-- Truth of "a row with this primary key exists". -/
def spanPKPresent (table : List SpanRow) (tid sid : String) : Bool :=
  table.any (spanPKMatches tid sid)

/-- Result of delivering the same decoded batch to `batch_insert_spans`
`n` times, starting from an empty `spans` relation. -/
def applyBatch (rows : List SpanRow) : Nat → List SpanRow
  | 0 => []
  | n + 1 => batchInsertPure rows (applyBatch rows n)

/-- The list of patch rows that one pass of `process_state_patches` derives
from a span's events: one row per event named `"set_state"`, ids drawn in
order from the freshness counter. -/
def set_state_patch_rows (svc tid sid wid nid : String) :
    List SpanEvent → Nat → List PatchRow
  | [], _ => []
  | e :: rest, ctr =>
    if e.name = "set_state" then
      mkPatchRow ctr svc tid sid wid nid e ::
        set_state_patch_rows svc tid sid wid nid rest (ctr + 1)
    else set_state_patch_rows svc tid sid wid nid rest ctr

/-- Necessary condition for a string to parse as a JSON object: after any
leading JSON whitespace its first character is an opening brace
(`Char.ofNat 123`).  Any string violating this is rejected by every
conforming JSON parser when an object is expected. -/
def jsonObjectShape (s : String) : Bool :=
  (s.data.dropWhile
      (fun c => c == ' ' || c == Char.ofNat 9 || c == Char.ofNat 10 || c == Char.ofNat 13)).head?
    == some (Char.ofNat 123)

/-! ## Concrete fixtures used by counterexamples and witnesses -/

/-- Minimal concrete OTLP span: `trace_id` renders as `"aabb"`, `span_id`
as `"0102"`, no parent, no attributes, no events. -/
def baseSpan : Span :=
  { trace_id := [170, 187]
    span_id := [1, 2]
    parent_span_id := []
    name := "op"
    kind := 1
    start_time_unix_nano := 2000
    end_time_unix_nano := 3000
    attributes := []
    events := []
    status := ⟨0, ""⟩
    flags := 0
    trace_state := "" }

/-- Concrete span whose `parent_span_id` is eight zero bytes. -/
def zeroParentSpan : Span :=
  { baseSpan with parent_span_id := List.replicate 8 0 }

/-- Concrete `set_state` event with a store id and no patch attribute. -/
def setStateEvent : SpanEvent :=
  ⟨"set_state", 7000, 0, [⟨"junjo.store.id", AnyValue.stringValue "store-1"⟩]⟩

/-- Concrete attribute list mixing a dedicated-column key with an ordinary
one. -/
def mixedAttrs : List KeyValue :=
  [ ⟨"junjo.id", AnyValue.stringValue "wf-1"⟩,
    ⟨"http.method", AnyValue.stringValue "POST"⟩ ]

/-- Concrete workflow span whose `junjo.workflow.state.start` attribute is
not JSON at all. -/
def wfBadJsonSpan : Span :=
  { baseSpan with
      attributes :=
        [ ⟨"junjo.span_type", AnyValue.stringValue "workflow"⟩,
          ⟨"junjo.workflow.state.start", AnyValue.stringValue "not json"⟩ ] }

/-- Concrete span carrying one `set_state` event. -/
def eventfulSpan : Span :=
  { baseSpan with events := [setStateEvent] }

/-- Concrete single-row `spans` relation holding the decoded `baseSpan`
(its `trace_id` is the lowercase hex string `"aabb"`). -/
def storedTable : List SpanRow :=
  [span_row "svc" baseSpan]

/-- Concrete stream frame with key `0x01` for the poller cycle. -/
def frame1 : SpanWithResource := ⟨[1], [222], []⟩

/-- Parse oracle under which every frame fails to protobuf-parse. -/
def parseNone : List Nat → Option Span := fun _ => none

/-- Parse oracle under which every frame parses to `baseSpan`. -/
def parseBase : List Nat → Option Span := fun _ => some baseSpan

/-- Resource-parse oracle that always fails (service name defaults). -/
def parseNoResource : List Nat → Option (List KeyValue) := fun _ => none

/-! # Claim theorems -/

/-- C1 — the code evaluated at the failing input.  The claim ("for every
poll cycle in which the batch is not committed, the cursor used for the
next `Reader.read` call is unchanged, so the same batch is re-read") is
violated by `span_ingestion_poller`: `last_key` is reassigned to the last
frame's `key_ulid` at step 2, before unmarshalling and before the
transaction, and the failure paths only `continue`.  Starting a cycle at
cursor `[0]` with one frame keyed `[1]`: when every frame fails to parse,
and likewise when the columnar-store transaction fails (rolling the store
back and leaving the persisted state unsaved), the in-memory cursor is
nevertheless `[1]`, so the abandoned batch is not re-read next cycle —
contradicting the function's own docstring and inline comment ("retry
batch on next poll"). -/
theorem c1_cursor_advances_despite_failed_batch :
    ((poll_cycle [0] [frame1] parseNone parseNoResource DB.empty 0
        (fun _ => false) (fun _ => false)).last_key = [1] ∧
      (poll_cycle [0] [frame1] parseNone parseNoResource DB.empty 0
        (fun _ => false) (fun _ => false)).db = DB.empty ∧
      (poll_cycle [0] [frame1] parseNone parseNoResource DB.empty 0
        (fun _ => false) (fun _ => false)).saved_key = none) ∧
    ((poll_cycle [0] [frame1] parseBase parseNoResource DB.empty 0
        (fun _ => true) (fun _ => false)).last_key = [1] ∧
      (poll_cycle [0] [frame1] parseBase parseNoResource DB.empty 0
        (fun _ => true) (fun _ => false)).db = DB.empty ∧
      (poll_cycle [0] [frame1] parseBase parseNoResource DB.empty 0
        (fun _ => true) (fun _ => false)).saved_key = none) ∧
    ([1] : List Nat) ≠ [0] :=
  ⟨⟨rfl, rfl, rfl⟩, ⟨rfl, rfl, rfl⟩, by decide⟩

/-- C3 counterexample: the decoder does not map 1 to INTERNAL and 3 to
CLIENT as the claim states; `convert_kind` sends 1 to `"CLIENT"` and 3 to
`"INTERNAL"` (`span_processor.py` lines 50-57, confirmed by the
repository's own `test_convert_kind_all_types`). -/
theorem c3_kind_swap_counterexample :
    convert_kind 1 = "CLIENT" ∧ convert_kind 1 ≠ "INTERNAL" ∧
    convert_kind 3 = "INTERNAL" ∧ convert_kind 3 ≠ "CLIENT" := by decide

/-- C3 (amended): for every integer kind value the decoder maps 0 to
UNSPECIFIED, 1 to CLIENT, 2 to SERVER, 3 to INTERNAL, 4 to PRODUCER, 5 to
CONSUMER — the INTERNAL and CLIENT enumerants are swapped relative to the
OTLP enumeration — and every other integer to UNSPECIFIED. -/
theorem c3_convert_kind_total_mapping (k : Nat) :
    convert_kind k =
      if k = 0 then "UNSPECIFIED"
      else if k = 1 then "CLIENT"
      else if k = 2 then "SERVER"
      else if k = 3 then "INTERNAL"
      else if k = 4 then "PRODUCER"
      else if k = 5 then "CONSUMER"
      else "UNSPECIFIED" := by
  match k with
  | 0 | 1 | 2 | 3 | 4 | 5 => rfl
  | (n + 6) =>
    show (kindLookup kind_map (n + 6)).getD "UNSPECIFIED" = _
    rw [kind_map]
    rw [kindLookup, if_neg (by omega), kindLookup, if_neg (by omega),
      kindLookup, if_neg (by omega), kindLookup, if_neg (by omega),
      kindLookup, if_neg (by omega), kindLookup, if_neg (by omega), kindLookup]
    rw [if_neg (by omega), if_neg (by omega), if_neg (by omega),
      if_neg (by omega), if_neg (by omega), if_neg (by omega)]
    rfl

/-- C4 counterexample: a decoded span whose `parent_span_id` consists of
eight zero bytes is a non-empty (truthy) byte string, so the stored row's
`parent_span_id` is the hex string `"0000000000000000"`, not absent — only
an empty (missing) field is stored as NULL. -/
theorem c4_zero_parent_counterexample :
    (span_row "svc" zeroParentSpan).parent_span_id = some "0000000000000000" ∧
    (span_row "svc" zeroParentSpan).parent_span_id ≠ none ∧
    (span_row "svc" baseSpan).parent_span_id = none := by decide

/-- C4 (amended): the stored `parent_span_id` is absent exactly when the
protobuf field is empty (missing); any non-empty value — including eight
zero bytes — is stored as its lowercase hex rendering. -/
theorem c4_parent_absent_iff_empty (svc : String) (span : Span) :
    (span_row svc span).parent_span_id =
      (if span.parent_span_id.isEmpty then none
       else some (bytesHex span.parent_span_id)) ∧
    ((span_row svc span).parent_span_id = none ↔ span.parent_span_id = []) := by
  have e : (span_row svc span).parent_span_id =
      (if span.parent_span_id.isEmpty then none
       else some (bytesHex span.parent_span_id)) := rfl
  refine ⟨e, ?_⟩
  rw [e]
  cases span.parent_span_id <;> simp

/-- C5: the auth handler never propagates an error to the caller, and its
response has `is_valid = true` exactly when the database lookup succeeded
and a row with the given key exists in the `api_keys` relation; both a
miss and a database failure yield `is_valid = false` (fail-closed). -/
theorem c5_validate_api_key_fail_closed (table : List APIKeyRow) (k : String)
    (dbFails : Bool) :
    ∃ resp : ValidateApiKeyResponse,
      ValidateApiKey table k dbFails = Except.ok resp ∧
      (resp.is_valid = true ↔ dbFails = false ∧ ∃ r ∈ table, r.key = k) := by
  cases dbFails with
  | true => exact ⟨⟨false⟩, rfl, by simp⟩
  | false =>
    cases h : get_by_key table k with
    | none =>
      refine ⟨⟨false⟩, by simp [ValidateApiKey, h], ?_⟩
      simp only [get_by_key] at h
      simp only [Bool.false_eq_true, false_iff, not_and]
      intro _ ⟨r, hr, hk⟩
      have := List.find?_eq_none.mp h r hr
      simp [hk] at this
    | some row =>
      refine ⟨⟨true⟩, by simp [ValidateApiKey, h], ?_⟩
      simp only [get_by_key] at h
      constructor
      · intro _
        exact ⟨rfl, row, List.mem_of_find?_eq_some h,
          by simpa using List.find?_some h⟩
      · intro _
        rfl

/-- Membership in the descending insertion is membership in the inserted
element or the list. -/
theorem mem_insertDescByStart (r x : SpanRow) (l : List SpanRow) :
    r ∈ insertDescByStart x l ↔ r = x ∨ r ∈ l := by
  induction l with
  | nil => simp [insertDescByStart]
  | cons a as ih =>
    rw [insertDescByStart]
    split
    · simp
    · simp only [List.mem_cons, ih]
      tauto

/-- Sorting a result set by `start_time` does not change its members. -/
theorem mem_sortByStartDesc (r : SpanRow) (l : List SpanRow) :
    r ∈ sortByStartDesc l ↔ r ∈ l := by
  induction l with
  | nil => simp [sortByStartDesc]
  | cons a as ih =>
    show r ∈ insertDescByStart a (sortByStartDesc as) ↔ _
    rw [mem_insertDescByStart]
    simp only [List.mem_cons, ih]

/-- C9 counterexample: neither `get_trace_spans` nor `get_span` normalizes
the queried `trace_id` to lowercase.  The stored decode of `baseSpan` has
`trace_id = "aabb"`; querying with the uppercase rendering `"AABB"`
returns no rows while the lowercase query returns the row, refuting the
claim that the two queries return the same rows. -/
theorem c9_no_lowercase_normalization_counterexample :
    get_trace_spans storedTable "aabb" = [span_row "svc" baseSpan] ∧
    get_trace_spans storedTable "AABB" = [] ∧
    get_span storedTable "aabb" "0102" = some (span_row "svc" baseSpan) ∧
    get_span storedTable "AABB" "0102" = none :=
  ⟨rfl, rfl, rfl, rfl⟩

/-- C9 (amended): the read helpers pass the queried `trace_id` through
verbatim and match case-sensitively — `get_trace_spans` returns a row
exactly when its stored `trace_id` equals the query string character for
character, and any row `get_span` returns matches both query strings
exactly; no case normalization is applied anywhere. -/
theorem c9_read_helpers_match_exactly (table : List SpanRow) (tid sid : String)
    (r : SpanRow) :
    (r ∈ get_trace_spans table tid ↔ r ∈ table ∧ r.trace_id = tid) ∧
    (get_span table tid sid).all
      (fun x => x.trace_id == tid && x.span_id == sid) = true := by
  constructor
  · show r ∈ sortByStartDesc _ ↔ _
    rw [mem_sortByStartDesc, List.mem_filter]
    simp
  · cases h : get_span table tid sid with
    | none => rfl
    | some x =>
      simp only [get_span] at h
      simpa [Option.all] using List.find?_some h

/-- Keys of a Python-dict insert: the inserted key or a key already
present. -/
theorem mem_keys_dictInsert (k k' : String) (v : JsonVal) :
    ∀ m : List (String × JsonVal),
      k' ∈ (dictInsert m k v).map Prod.fst → k' = k ∨ k' ∈ m.map Prod.fst := by
  intro m
  induction m with
  | nil =>
    intro h
    simp [dictInsert] at h
    exact Or.inl h
  | cons p rest ih =>
    obtain ⟨a, b⟩ := p
    intro h
    rw [dictInsert] at h
    by_cases e : a = k
    · rw [if_pos e] at h
      simp only [List.map_cons, List.mem_cons] at h ⊢
      tauto
    · rw [if_neg e] at h
      simp only [List.map_cons, List.mem_cons] at h ⊢
      rcases h with h | h
      · tauto
      · rcases ih h with h' | h' <;> tauto

/-- Keys accumulated by the `attr_map` fold come from the accumulator or
from the keys of the attribute list. -/
theorem mem_keys_attr_fold (attrs : List KeyValue) :
    ∀ (acc : List (String × JsonVal)) (k : String),
      k ∈ ((attrs.foldl
            (fun m attr =>
              match convert_otlp_value attr.value with
              | some v => dictInsert m attr.key v
              | none => m)
            acc).map Prod.fst) →
        k ∈ acc.map Prod.fst ∨ ∃ a ∈ attrs, a.key = k := by
  induction attrs with
  | nil =>
    intro acc k h
    exact Or.inl h
  | cons a rest ih =>
    intro acc k h
    rw [List.foldl_cons] at h
    rcases ih _ k h with h' | h'
    · cases hc : convert_otlp_value a.value with
      | none =>
        rw [hc] at h'
        exact Or.inl h'
      | some v =>
        rw [hc] at h'
        rcases mem_keys_dictInsert a.key k v acc h' with rfl | hm
        · exact Or.inr ⟨a, List.mem_cons_self a rest, rfl⟩
        · exact Or.inl hm
    · obtain ⟨x, hx, hk⟩ := h'
      exact Or.inr ⟨x, List.mem_cons_of_mem a hx, hk⟩

/-- C7: for every attribute list, every key appearing in the stored
`attributes_json` object — built by `convert_attributes_to_json` over
`filter_junjo_attributes` — lies outside the nine dedicated-column keys of
`JUNJO_FILTERED_ATTRIBUTES` (filter correctness / disjointness). -/
theorem c7_attributes_json_keys_disjoint (attrs : List KeyValue) (k : String)
    (hk : k ∈ (convert_attributes_map (filter_junjo_attributes attrs)).map Prod.fst) :
    k ∉ JUNJO_FILTERED_ATTRIBUTES := by
  have h := mem_keys_attr_fold (filter_junjo_attributes attrs) [] k
    (by simpa [convert_attributes_map] using hk)
  rcases h with h | ⟨a, ha, rfl⟩
  · simp at h
  · have hf := List.mem_filter.mp ha
    intro hmem
    have hnot : a.key ∉ JUNJO_FILTERED_ATTRIBUTES := by
      simpa using hf.2
    exact hnot hmem

/-- C7 witness: applying the disjointness theorem to the concrete
`mixedAttrs` list, whose surviving key `"http.method"` indeed appears in
the stored object. -/
theorem c7_witness : "http.method" ∉ JUNJO_FILTERED_ATTRIBUTES :=
  c7_attributes_json_keys_disjoint mixedAttrs "http.method" (by decide)

/-- C8 counterexample: `wfBadJsonSpan` is a workflow span whose
`junjo.workflow.state.start` attribute holds the string `"not json"`; the
stored `junjo_wf_state_start` is that raw string, whose first
non-whitespace character is not an opening brace, so it cannot parse as a
valid JSON object — refuting the claim that workflow spans' state fields
always parse as JSON objects. -/
theorem c8_workflow_state_not_json_counterexample :
    (span_row "svc" wfBadJsonSpan).junjo_span_type = "workflow" ∧
    (span_row "svc" wfBadJsonSpan).junjo_wf_state_start = "not json" ∧
    jsonObjectShape ((span_row "svc" wfBadJsonSpan).junjo_wf_state_start) = false := by
  decide

/-- C8 (amended): for spans whose `junjo_span_type` is workflow or
subflow, the three workflow-state columns hold the raw string value of the
corresponding attribute (defaulting to the literal `"\x7b\x7d"` when the
attribute is absent, with no JSON validation); for every other span they
hold the literal `"\x7b\x7d"`.  Being `String`-typed columns filled
unconditionally, they are never NULL. -/
theorem c8_workflow_state_fields_raw (svc : String) (span : Span) :
    ((span_row svc span).junjo_span_type = "workflow" ∨
        (span_row svc span).junjo_span_type = "subflow" →
      (span_row svc span).junjo_wf_state_start =
          extract_json_attribute span.attributes "junjo.workflow.state.start" ∧
        (span_row svc span).junjo_wf_state_end =
          extract_json_attribute span.attributes "junjo.workflow.state.end" ∧
        (span_row svc span).junjo_wf_graph_structure =
          extract_json_attribute span.attributes "junjo.workflow.graph_structure") ∧
    (¬((span_row svc span).junjo_span_type = "workflow" ∨
        (span_row svc span).junjo_span_type = "subflow") →
      (span_row svc span).junjo_wf_state_start = emptyJsonObject ∧
        (span_row svc span).junjo_wf_state_end = emptyJsonObject ∧
        (span_row svc span).junjo_wf_graph_structure = emptyJsonObject) := by
  have hty : (span_row svc span).junjo_span_type =
      extract_string_attribute span.attributes "junjo.span_type" := rfl
  have h1 : (span_row svc span).junjo_wf_state_start =
      (if extract_string_attribute span.attributes "junjo.span_type" = "workflow" ∨
          extract_string_attribute span.attributes "junjo.span_type" = "subflow" then
        extract_json_attribute span.attributes "junjo.workflow.state.start"
      else emptyJsonObject) := rfl
  have h2 : (span_row svc span).junjo_wf_state_end =
      (if extract_string_attribute span.attributes "junjo.span_type" = "workflow" ∨
          extract_string_attribute span.attributes "junjo.span_type" = "subflow" then
        extract_json_attribute span.attributes "junjo.workflow.state.end"
      else emptyJsonObject) := rfl
  have h3 : (span_row svc span).junjo_wf_graph_structure =
      (if extract_string_attribute span.attributes "junjo.span_type" = "workflow" ∨
          extract_string_attribute span.attributes "junjo.span_type" = "subflow" then
        extract_json_attribute span.attributes "junjo.workflow.graph_structure"
      else emptyJsonObject) := rfl
  rw [hty]
  constructor
  · intro h
    rw [h1, if_pos h, h2, if_pos h, h3, if_pos h]
    exact ⟨rfl, rfl, rfl⟩
  · intro h
    rw [h1, if_neg h, h2, if_neg h, h3, if_neg h]
    exact ⟨rfl, rfl, rfl⟩

/-- C8 witness: the amended theorem applied to the concrete non-workflow
`baseSpan`, whose three workflow-state columns are the literal
`"\x7b\x7d"`. -/
theorem c8_witness :
    (span_row "svc" baseSpan).junjo_wf_state_start = emptyJsonObject ∧
    (span_row "svc" baseSpan).junjo_wf_state_end = emptyJsonObject ∧
    (span_row "svc" baseSpan).junjo_wf_graph_structure = emptyJsonObject :=
  (c8_workflow_state_fields_raw "svc" baseSpan).2 (by decide)

/-- Matching the primary-key predicate pins down both identifier fields. -/
theorem spanPK_eq_of_matches {tid sid : String} {row : SpanRow}
    (h : spanPKMatches tid sid row = true) :
    row.trace_id = tid ∧ row.span_id = sid := by
  simpa [spanPKMatches] using h

/-- Presence of a primary key after an insert-or-ignore step. -/
theorem present_insertOrIgnore (t : List SpanRow) (row : SpanRow) (tid sid : String) :
    spanPKPresent (insertOrIgnoreSpan t row) tid sid =
      (spanPKPresent t tid sid || spanPKMatches tid sid row) := by
  rw [insertOrIgnoreSpan]
  split
  case isTrue hdup =>
    cases hq : spanPKMatches tid sid row with
    | false => simp [hq]
    | true =>
      obtain ⟨h1, h2⟩ := spanPK_eq_of_matches hq
      rw [h1, h2] at hdup
      have hp : spanPKPresent t tid sid = true := by
        simpa [spanPKPresent, spanPKMatches] using hdup
      simp [hp]
  case isFalse hdup =>
    simp [spanPKPresent, List.any_append, spanPKMatches]

/-- Row count for a primary key after an insert-or-ignore step: it grows by
one exactly when the inserted row carries that key and the key was absent. -/
theorem count_insertOrIgnore (t : List SpanRow) (row : SpanRow) (tid sid : String) :
    spanCount (insertOrIgnoreSpan t row) tid sid =
      spanCount t tid sid +
        (if spanPKMatches tid sid row && !(spanPKPresent t tid sid) then 1 else 0) := by
  rw [insertOrIgnoreSpan]
  split
  case isTrue hdup =>
    cases hq : spanPKMatches tid sid row with
    | false => simp [hq]
    | true =>
      obtain ⟨h1, h2⟩ := spanPK_eq_of_matches hq
      rw [h1, h2] at hdup
      have hp : spanPKPresent t tid sid = true := by
        simpa [spanPKPresent, spanPKMatches] using hdup
      simp [hp]
  case isFalse hdup =>
    cases hq : spanPKMatches tid sid row with
    | false => simp [spanCount, List.countP_append, List.countP_cons, hq]
    | true =>
      obtain ⟨h1, h2⟩ := spanPK_eq_of_matches hq
      rw [h1, h2] at hdup
      have hp : spanPKPresent t tid sid = false := by
        rw [spanPKPresent]
        simpa [spanPKMatches] using hdup
      simp [spanCount, List.countP_append, List.countP_cons, hq, hp]

/-- Absent primary keys have row count zero. -/
theorem count_zero_of_not_present {t : List SpanRow} {tid sid : String}
    (h : spanPKPresent t tid sid = false) : spanCount t tid sid = 0 := by
  rw [spanCount, List.countP_eq_zero]
  intro r hr
  intro hm
  rw [spanPKPresent] at h
  have := List.any_eq_true.mpr ⟨r, hr, hm⟩
  rw [this] at h
  cases h

/-- Primary-key presence after a whole batch insert: present before, or
carried by some row of the batch. -/
theorem present_batchInsertPure (rows : List SpanRow) :
    ∀ (t : List SpanRow) (tid sid : String),
      spanPKPresent (batchInsertPure rows t) tid sid =
        (spanPKPresent t tid sid || rows.any (spanPKMatches tid sid)) := by
  induction rows with
  | nil =>
    intro t tid sid
    simp [batchInsertPure]
  | cons row rs ih =>
    intro t tid sid
    show spanPKPresent (batchInsertPure rs (insertOrIgnoreSpan t row)) tid sid = _
    rw [ih, present_insertOrIgnore]
    simp [Bool.or_assoc]

/-- Row count for a primary key after a whole batch insert: keys already
present keep their count, keys introduced by the batch end at exactly one
row, and untouched keys stay at zero. -/
theorem count_batchInsertPure (rows : List SpanRow) :
    ∀ (t : List SpanRow) (tid sid : String),
      spanCount (batchInsertPure rows t) tid sid =
        (if spanPKPresent t tid sid then spanCount t tid sid
         else if rows.any (spanPKMatches tid sid) then 1 else 0) := by
  induction rows with
  | nil =>
    intro t tid sid
    show spanCount t tid sid = _
    cases hp : spanPKPresent t tid sid with
    | true => simp [hp]
    | false => simp [hp, count_zero_of_not_present hp]
  | cons row rs ih =>
    intro t tid sid
    show spanCount (batchInsertPure rs (insertOrIgnoreSpan t row)) tid sid = _
    rw [ih, present_insertOrIgnore, count_insertOrIgnore]
    cases hp : spanPKPresent t tid sid with
    | true => simp [hp]
    | false =>
      cases hq : spanPKMatches tid sid row with
      | false => simp [hp, hq, count_zero_of_not_present hp]
      | true => simp [hp, hq, count_zero_of_not_present hp]

/-- Embedding of the `executemany` call of `batch_insert_spans`: with
`INSERT OR IGNORE`, the call returns successfully on every input — a
duplicate primary key never raises. -/
theorem batch_insert_spans_never_raises (rows : List SpanRow) :
    ∀ table : List SpanRow,
      batch_insert_spans rows table = Except.ok (batchInsertPure rows table) := by
  induction rows with
  | nil => intro t; rfl
  | cons r rs ih =>
    intro t
    show List.foldlM _ t (r :: rs) = _
    rw [List.foldlM_cons]
    have hins : duckInsertSpan true t r = Except.ok (insertOrIgnoreSpan t r) := by
      rw [duckInsertSpan, insertOrIgnoreSpan]
      split <;> rfl
    rw [hins]
    show batch_insert_spans rs (insertOrIgnoreSpan t r) = _
    exact ih (insertOrIgnoreSpan t r)

/-- Primary-key presence after at least one delivery of the batch into an
initially empty relation is exactly "some batch row carries the key". -/
theorem present_applyBatch (rows : List SpanRow) (tid sid : String) :
    ∀ m : Nat, spanPKPresent (applyBatch rows (m + 1)) tid sid =
      rows.any (spanPKMatches tid sid) := by
  intro m
  induction m with
  | zero =>
    show spanPKPresent (batchInsertPure rows (applyBatch rows 0)) tid sid = _
    rw [present_batchInsertPure]
    simp [applyBatch, spanPKPresent]
  | succ k ih =>
    show spanPKPresent (batchInsertPure rows (applyBatch rows (k + 1))) tid sid = _
    rw [present_batchInsertPure, ih]
    simp

/-- C2: batch insertion into the `spans` relation is an idempotent
upsert-ignore — delivering the same decoded batch any number `n + 1` of
times to `batch_insert_spans` never raises on a duplicate `(trace_id,
span_id)` primary key (the insert always returns `ok`), and afterwards the
relation holds exactly one row per primary key carried by the batch and no
row for any other key. -/
theorem c2_batch_insert_idempotent (rows : List SpanRow) (n : Nat) (tid sid : String) :
    (∀ table : List SpanRow,
      batch_insert_spans rows table = Except.ok (batchInsertPure rows table)) ∧
    spanCount (applyBatch rows (n + 1)) tid sid =
      (if rows.any (spanPKMatches tid sid) then 1 else 0) := by
  refine ⟨batch_insert_spans_never_raises rows, ?_⟩
  induction n with
  | zero =>
    show spanCount (batchInsertPure rows (applyBatch rows 0)) tid sid = _
    rw [count_batchInsertPure]
    simp [applyBatch, spanPKPresent]
  | succ m ih =>
    show spanCount (batchInsertPure rows (applyBatch rows (m + 1))) tid sid = _
    rw [count_batchInsertPure]
    have hpres : spanPKPresent (applyBatch rows (m + 1)) tid sid =
        rows.any (spanPKMatches tid sid) := present_applyBatch rows tid sid m
    cases h : rows.any (spanPKMatches tid sid) with
    | false =>
      rw [h] at hpres
      simp [hpres, h]
    | true =>
      rw [h] at hpres
      rw [hpres]
      simpa [h] using ih

/-- Derived patch rows per event list: one per `set_state` event. -/
theorem set_state_rows_length (svc tid sid wid nid : String) :
    ∀ (events : List SpanEvent) (ctr : Nat),
      (set_state_patch_rows svc tid sid wid nid events ctr).length =
        (events.filter (fun e => e.name == "set_state")).length := by
  intro events
  induction events with
  | nil => intro ctr; rfl
  | cons e rest ih =>
    intro ctr
    rw [set_state_patch_rows]
    by_cases h : e.name = "set_state"
    · rw [if_pos h]
      simp [List.filter_cons, h, ih]
    · rw [if_neg h]
      simp [List.filter_cons, h, ih]

/-- With fresh surrogate ids and no insert failures, one pass of
`process_state_patches` appends exactly the per-event patch rows, in event
order. -/
theorem process_state_patches_appends (events : List SpanEvent) :
    ∀ (db : DB) (ctr : Nat) (tid sid wid nid svc : String),
      (∀ p ∈ db.patches, p.patch_id < ctr) →
      (process_state_patches db events tid sid wid nid svc ctr (fun _ => false)).1.patches =
        db.patches ++ set_state_patch_rows svc tid sid wid nid events ctr := by
  induction events with
  | nil =>
    intro db ctr tid sid wid nid svc _
    simp [process_state_patches, set_state_patch_rows]
  | cons e rest ih =>
    intro db ctr tid sid wid nid svc hfresh
    rw [process_state_patches, set_state_patch_rows]
    by_cases h : e.name = "set_state"
    · rw [if_pos h, if_pos h]
      have hany : db.patches.any
          (fun p => p.patch_id == (mkPatchRow ctr svc tid sid wid nid e).patch_id) = false := by
        rw [List.any_eq_false]
        intro p hp
        have hlt := hfresh p hp
        simp only [mkPatchRow, beq_iff_eq]
        omega
      have hins : insertOrIgnorePatch db.patches (mkPatchRow ctr svc tid sid wid nid e) =
          db.patches ++ [mkPatchRow ctr svc tid sid wid nid e] := by
        rw [insertOrIgnorePatch, hany]
        rfl
      have hatt : patchInsertAttempt (fun _ => false) ctr db.patches
          (mkPatchRow ctr svc tid sid wid nid e) =
            Except.ok (db.patches ++ [mkPatchRow ctr svc tid sid wid nid e]) := by
        rw [patchInsertAttempt, hins]
        rfl
      simp only [hatt]
      have hrec := ih ⟨db.spans, db.patches ++ [mkPatchRow ctr svc tid sid wid nid e]⟩
        (ctr + 1) tid sid wid nid svc
        (by
          intro p hp
          rcases List.mem_append.mp hp with hp' | hp'
          · exact Nat.lt_succ_of_lt (hfresh p hp')
          · rcases List.mem_singleton.mp hp' with rfl
            exact Nat.lt_succ_self ctr)
      rw [hrec]
      simp
    · rw [if_neg h, if_neg h]
      exact ih db ctr tid sid wid nid svc hfresh

/-- C6: one ingestion pass over a span's events inserts exactly one row
into `state_patches` per event named `"set_state"` — the table grows by
precisely the list of per-event rows, each carrying the enclosing span's
`trace_id` and `span_id`, the event's (microsecond) time, the extracted
`workflow_id`/`node_id`, `patch_json` from attribute
`junjo.state_json_patch` (defaulting to the empty JSON object) and
`patch_store_id` from `junjo.store.id` (defaulting to the empty string) —
as recorded in `mkPatchRow`; the number of appended rows equals the number
of `set_state` events. -/
theorem c6_state_patch_completeness (db : DB) (events : List SpanEvent)
    (tid sid wid nid svc : String) (ctr : Nat)
    (hfresh : ∀ p ∈ db.patches, p.patch_id < ctr) :
    (process_state_patches db events tid sid wid nid svc ctr
        (fun _ => false)).1.patches =
      db.patches ++ set_state_patch_rows svc tid sid wid nid events ctr ∧
    (set_state_patch_rows svc tid sid wid nid events ctr).length =
      (events.filter (fun e => e.name == "set_state")).length :=
  ⟨process_state_patches_appends events db ctr tid sid wid nid svc hfresh,
    set_state_rows_length svc tid sid wid nid events ctr⟩

/-- C6 witness: the theorem applied to the empty store and the concrete
one-event list `[setStateEvent]`; the inserted row is exactly
`mkPatchRow 0 ...` for that event. -/
theorem c6_witness :
    (process_state_patches DB.empty [setStateEvent] "aabb" "0102" "wf-1" ""
        "svc" 0 (fun _ => false)).1.patches =
      [mkPatchRow 0 "svc" "aabb" "0102" "wf-1" "" setStateEvent] := by
  have h := c6_state_patch_completeness DB.empty [setStateEvent] "aabb" "0102"
    "wf-1" "" "svc" 0 (by intro p hp; cases hp)
  simpa [set_state_patch_rows, setStateEvent, DB.empty] using h.1

/-- State-patch processing never touches the `spans` relation. -/
theorem process_state_patches_spans (events : List SpanEvent) :
    ∀ (db : DB) (tid sid wid nid svc : String) (ctr : Nat) (pf : Nat → Bool),
      (process_state_patches db events tid sid wid nid svc ctr pf).1.spans = db.spans := by
  induction events with
  | nil => intros; rfl
  | cons e rest ih =>
    intro db tid sid wid nid svc ctr pf
    rw [process_state_patches]
    by_cases h : e.name = "set_state"
    · rw [if_pos h]
      cases hatt : patchInsertAttempt pf ctr db.patches
          (mkPatchRow ctr svc tid sid wid nid e) with
      | ok patches' =>
        simp only [hatt]
        exact ih ⟨db.spans, patches'⟩ tid sid wid nid svc (ctr + 1) pf
      | error err =>
        simp only [hatt]
        exact ih db tid sid wid nid svc (ctr + 1) pf
    · rw [if_neg h]
      exact ih db tid sid wid nid svc ctr pf

/-- Primary keys already present in `spans` stay present through the rest
of a batch. -/
theorem spans_present_mono_batch_pure (svc : String) (pf : Nat → Bool) :
    ∀ (spans : List Span) (db : DB) (ctr : Nat) (tid sid : String),
      spanPKPresent db.spans tid sid = true →
      spanPKPresent (process_batch_pure svc spans db ctr pf).1.spans tid sid = true := by
  intro spans
  induction spans with
  | nil => intro db ctr tid sid h; exact h
  | cons x rest ih =>
    intro db ctr tid sid h
    simp only [process_batch_pure, process_single_span]
    rcases hpp : process_state_patches
        ⟨insertOrIgnoreSpan db.spans (span_row svc x), db.patches⟩ x.events
        (bytesHex x.trace_id) (bytesHex x.span_id) (span_workflow_id x)
        (span_node_id x) svc ctr pf with ⟨db2, ctr2⟩
    simp only [hpp]
    have hspans : db2.spans = insertOrIgnoreSpan db.spans (span_row svc x) := by
      have hkeep := process_state_patches_spans x.events
        ⟨insertOrIgnoreSpan db.spans (span_row svc x), db.patches⟩
        (bytesHex x.trace_id) (bytesHex x.span_id) (span_workflow_id x)
        (span_node_id x) svc ctr pf
      rw [hpp] at hkeep
      exact hkeep
    apply ih db2 ctr2 tid sid
    rw [hspans, present_insertOrIgnore, h]
    rfl

/-- Every span of a batch has its primary key present in `spans` after the
pure batch processing, for any patch-failure oracle. -/
theorem batch_pure_contains_each (svc : String) (pf : Nat → Bool) :
    ∀ (spans : List Span) (db : DB) (ctr : Nat) (s : Span), s ∈ spans →
      spanPKPresent (process_batch_pure svc spans db ctr pf).1.spans
        (bytesHex s.trace_id) (bytesHex s.span_id) = true := by
  intro spans
  induction spans with
  | nil => intro db ctr s hs; cases hs
  | cons x rest ih =>
    intro db ctr s hs
    simp only [process_batch_pure, process_single_span]
    rcases hpp : process_state_patches
        ⟨insertOrIgnoreSpan db.spans (span_row svc x), db.patches⟩ x.events
        (bytesHex x.trace_id) (bytesHex x.span_id) (span_workflow_id x)
        (span_node_id x) svc ctr pf with ⟨db2, ctr2⟩
    simp only [hpp]
    have hspans : db2.spans = insertOrIgnoreSpan db.spans (span_row svc x) := by
      have hkeep := process_state_patches_spans x.events
        ⟨insertOrIgnoreSpan db.spans (span_row svc x), db.patches⟩
        (bytesHex x.trace_id) (bytesHex x.span_id) (span_workflow_id x)
        (span_node_id x) svc ctr pf
      rw [hpp] at hkeep
      exact hkeep
    rcases List.mem_cons.mp hs with rfl | hs'
    · apply spans_present_mono_batch_pure svc pf rest db2 ctr2
      have e1 : (span_row svc s).trace_id = bytesHex s.trace_id := rfl
      have e2 : (span_row svc s).span_id = bytesHex s.span_id := rfl
      have hm : spanPKMatches (bytesHex s.trace_id) (bytesHex s.span_id)
          (span_row svc s) = true := by
        simp [spanPKMatches, e1, e2]
      rw [hspans, present_insertOrIgnore, hm]
      simp
    · exact ih db2 ctr2 s hs'

/-- With no span-insert failures, the transactional loop equals the pure
batch result, for any patch-failure oracle. -/
theorem process_spans_loop_no_span_failure (svc : String) (pf : Nat → Bool) :
    ∀ (spans : List Span) (db : DB) (ctr idx : Nat),
      process_spans_loop svc spans db ctr idx (fun _ => false) pf =
        Except.ok (process_batch_pure svc spans db ctr pf) := by
  intro spans
  induction spans with
  | nil => intros; rfl
  | cons x rest ih =>
    intro db ctr idx
    rw [process_spans_loop, if_neg (by simp)]
    simp only [process_batch_pure, process_single_span]
    rcases hpp : process_state_patches
        ⟨insertOrIgnoreSpan db.spans (span_row svc x), db.patches⟩ x.events
        (bytesHex x.trace_id) (bytesHex x.span_id) (span_workflow_id x)
        (span_node_id x) svc ctr pf with ⟨db2, ctr2⟩
    simp only [hpp]
    exact ih db2 ctr2 (idx + 1)

/-- C10: a failing state-patch insert is caught inside
`process_state_patches` (whose embedding is a total function — the
`Except` raised by the insert is consumed by the surrounding match, which
logs and keeps the previous state) and never propagates; consequently, for
every patch-failure oracle, `process_span_batch` with no span-insert
failure commits (`Except.ok`), and the committed `spans` relation contains
the primary key of every span of the batch, even when some of its
`set_state` patches were dropped. -/
theorem c10_patch_failure_never_rolls_back (svc : String) (spans : List Span)
    (db : DB) (ctr : Nat) (patchFail : Nat → Bool) :
    process_span_batch svc spans db ctr (fun _ => false) patchFail =
      Except.ok (process_batch_pure svc spans db ctr patchFail) ∧
    ∀ s ∈ spans,
      spanPKPresent (process_batch_pure svc spans db ctr patchFail).1.spans
        (bytesHex s.trace_id) (bytesHex s.span_id) = true := by
  constructor
  · rw [process_span_batch]
    cases spans with
    | nil => rfl
    | cons x rest =>
      rw [if_neg (by simp)]
      exact process_spans_loop_no_span_failure svc patchFail (x :: rest) db ctr 0
  · intro s hs
    exact batch_pure_contains_each svc patchFail spans db ctr s hs

/-- C10 witness: the theorem applied to the concrete batch
`[eventfulSpan]` under the always-failing patch oracle — the batch still
commits, the span row's primary key is present, and the failed `set_state`
patch is absent from `state_patches`. -/
theorem c10_witness :
    process_span_batch "svc" [eventfulSpan] DB.empty 0 (fun _ => false)
        (fun _ => true) =
      Except.ok (process_batch_pure "svc" [eventfulSpan] DB.empty 0 (fun _ => true)) ∧
    spanPKPresent
        (process_batch_pure "svc" [eventfulSpan] DB.empty 0 (fun _ => true)).1.spans
        (bytesHex eventfulSpan.trace_id) (bytesHex eventfulSpan.span_id) = true ∧
    (process_batch_pure "svc" [eventfulSpan] DB.empty 0 (fun _ => true)).1.patches = [] := by
  have h := c10_patch_failure_never_rolls_back "svc" [eventfulSpan] DB.empty 0
    (fun _ => true)
  exact ⟨h.1, h.2 eventfulSpan (List.mem_singleton.mpr rfl), rfl⟩

end Junjo
